import Mathlib

/-!
Shallow embedding of the datastreamX article service.

Source files embedded:
- `src/usecases/article_usecase.py` (`ArticleUseCase.get_article`,
  `ArticleUseCase.create_article`)
- `src/adapters/persistence/article_repo.py` (`ArticleRepository`)
- `src/adapters/api/article_controller.py` (route handler `get_article`)
- `src/infrastructure/database.py` (`get_db`)

The cache collaborator (`CacheRepository` / `infrastructure.cache`) and the
id assignment performed by SQLAlchemy on commit are not under `src/`; they
are modelled from the spec's collaborator contracts (spec section 6).

Python dynamic values that can sit in the cache are modelled by `Value`,
with Python truthiness (`if x:`) given by `Value.truthy`: `None`, `0` and
`""` are falsy; object instances such as an Article are truthy.
-/

/-- The Article entity: `{ id: optional integer, title: string, content: string }`. -/
structure Article where
  id : Option Int
  title : String
  content : String
deriving DecidableEq, Repr

/-- A Python value as it may appear in the key/value cache: `None`, an
integer, a string, or an Article instance. -/
inductive Value where
  | none
  | int (n : Int)
  | str (s : String)
  | article (a : Article)
deriving DecidableEq, Repr

/-- Python truthiness: `None`, `0` and `""` are falsy; a plain object
instance (an Article) is truthy. -/
def Value.truthy : Value → Bool
  | Value.none => false
  | Value.int n => n != 0
  | Value.str s => s != ""
  | Value.article _ => true

/-- The state the use case acts on: the durable store (a partial map from
integer id to Article, plus the next id the store will assign on save),
a counter of `get_by_id` calls (instrumentation observing whether the read
path hits the store), and the key/value cache. -/
structure SysState where
  store : Int → Option Article
  nextId : Int
  storeReads : Nat
  cache : String → Option Value

/-- The cache key `f"article:{article_id}"`: "article:" followed by the
decimal rendering of the id. -/
def cacheKey (article_id : Int) : String :=
  "article:" ++ toString article_id

namespace ArticleRepository

/-- `ArticleRepository.get_by_id`: `self.db.query(Article).filter(Article.id == article_id).first()`
returns the stored Article or `None`. The read is counted in `storeReads`. -/
def get_by_id (st : SysState) (article_id : Int) : Option Article × SysState :=
  (st.store article_id, { st with storeReads := st.storeReads + 1 })

/-- Modelled from the spec: `ArticleRepository.save` does `db.add(article); db.commit()`;
the id assignment happens inside SQLAlchemy, outside `src/`. Spec section 6:
"`save(article) → void`, assigns id as a side effect". The store assigns the
next fresh id to the article and persists it under that id. -/
def save (st : SysState) (a : Article) : Article × SysState :=
  let assigned : Article := { a with id := Option.some st.nextId }
  (assigned,
    { st with
        store := fun i => if i = st.nextId then Option.some assigned else st.store i,
        nextId := st.nextId + 1 })

end ArticleRepository

namespace CacheRepository

/-- Modelled from the spec: the cache collaborator's `get(key) → value|absent`
(spec section 6); an absent key reads as Python `None`. The file
`src/adapters/cache/cache_repo.py` is not under `src/`. -/
def get (st : SysState) (key : String) : Value :=
  (st.cache key).getD Value.none

/-- Modelled from the spec: the cache collaborator's `set(key, value) → void`
(spec section 6): stores `value` under `key`, overwriting any previous entry. -/
def set (st : SysState) (key : String) (v : Value) : SysState :=
  { st with cache := fun k => if k = key then Option.some v else st.cache k }

end CacheRepository

namespace ArticleUseCase

/-- `ArticleUseCase.get_article`:
`cached_article = self.cache_repo.get(f"article:{article_id}")`;
`if cached_article: return cached_article`;
`article = self.article_repo.get_by_id(article_id)`;
`if article: self.cache_repo.set(f"article:{article_id}", article)`;
`return article`. The trailing `if article:` is truthiness on
`Article | None`; an Article instance is always truthy, so it is the
`some`/`none` split of the store result. -/
def get_article (st : SysState) (article_id : Int) : Value × SysState :=
  let cached_article := CacheRepository.get st (cacheKey article_id)
  if cached_article.truthy then
    (cached_article, st)
  else
    match ArticleRepository.get_by_id st article_id with
    | (Option.some article, st1) =>
        (Value.article article,
          CacheRepository.set st1 (cacheKey article_id) (Value.article article))
    | (Option.none, st1) => (Value.none, st1)

/-- `ArticleUseCase.create_article`:
`article = Article(id=None, title=title, content=content)`;
`self.article_repo.save(article)` (mutates `article.id` in place);
`return article`. -/
def create_article (st : SysState) (title content : String) : Article × SysState :=
  let article : Article := { id := Option.none, title := title, content := content }
  ArticleRepository.save st article

end ArticleUseCase

/-- A route handler response: either a `{"data": ...}` body, or an error
body paired with an HTTP status, as in `return {"error": "Article not found"}, 404`. -/
inductive ApiResponse where
  | data (body : Value)
  | error (body : String) (status : Nat)
deriving DecidableEq, Repr

namespace ArticleController

/-- Route handler `get_article` in `article_controller.py`:
`article = article_usecase.get_article(id)`;
`if article: return {"data": article}`;
`return {"error": "Article not found"}, 404`. -/
def get_article (st : SysState) (id : Int) : ApiResponse × SysState :=
  match ArticleUseCase.get_article st id with
  | (article, st1) =>
      if article.truthy then (ApiResponse.data article, st1)
      else (ApiResponse.error "Article not found" 404, st1)

end ArticleController

/-- State of the connection provider: the next connection handle
`SessionLocal()` will hand out, and the handles that have been closed. -/
structure DbState where
  nextConn : Nat
  closed : List Nat
deriving DecidableEq, Repr

/-- `SessionLocal()`: acquire a fresh connection handle. -/
def sessionLocal (s : DbState) : Nat × DbState :=
  (s.nextConn, { s with nextConn := s.nextConn + 1 })

/-- `db.close()`: record the handle as closed. -/
def closeConn (db : Nat) (s : DbState) : DbState :=
  { s with closed := db :: s.closed }

/-- Outcome of the request body run inside `get_db`: a normal return or a
raised exception propagating through the generator's `yield`. -/
inductive PyOutcome (α : Type) where
  | ok (a : α)
  | exn (e : String)
deriving DecidableEq, Repr

/-- `get_db`: `db = SessionLocal()`; `try: yield db` (run the request body
with the connection, which may return normally or raise); `finally: db.close()`
— the close runs on both exit paths and the body's outcome is then
propagated unchanged. -/
def get_db {α : Type} (body : Nat → DbState → PyOutcome α × DbState) (s : DbState) :
    PyOutcome α × DbState :=
  let (db, s1) := sessionLocal s
  match body db s1 with
  | (PyOutcome.ok a, s2) => (PyOutcome.ok a, closeConn db s2)
  | (PyOutcome.exn e, s2) => (PyOutcome.exn e, closeConn db s2)

/-- Concrete article used in witnesses and counterexamples. -/
def a0 : Article := { id := Option.some 5, title := "Go", content := "Intro" }

/-- Concrete state: store holds `a0` under id 5, cache empty. -/
def st0 : SysState :=
  { store := fun i => if i = 5 then Option.some a0 else Option.none
    nextId := 6
    storeReads := 0
    cache := fun _ => Option.none }

/-- Concrete state: store and cache both empty. -/
def stE : SysState :=
  { store := fun _ => Option.none
    nextId := 1
    storeReads := 0
    cache := fun _ => Option.none }

/-- Concrete state: the cache holds the falsy value `""` under key
"article:5" while the store holds `a0` under id 5. -/
def stF : SysState :=
  { store := fun i => if i = 5 then Option.some a0 else Option.none
    nextId := 6
    storeReads := 0
    cache := fun k => if k = "article:5" then Option.some (Value.str "") else Option.none }

/-- Concrete state: like `st0` but the cache also holds a truthy entry
under the unrelated key "other". -/
def stW : SysState :=
  { store := fun i => if i = 5 then Option.some a0 else Option.none
    nextId := 6
    storeReads := 0
    cache := fun k => if k = "other" then Option.some (Value.int 3) else Option.none }

/-- C1: for an id whose article is in the store and whose key is absent
from the cache, `get_article` returns that article and afterwards the cache
holds it under the key "article:"+id. -/
theorem get_article_miss_populates_cache (st : SysState) (article_id : Int) (a : Article)
    (hc : st.cache (cacheKey article_id) = Option.none)
    (hs : st.store article_id = Option.some a) :
    (ArticleUseCase.get_article st article_id).1 = Value.article a ∧
    ((ArticleUseCase.get_article st article_id).2).cache (cacheKey article_id)
      = Option.some (Value.article a) := by
  unfold ArticleUseCase.get_article CacheRepository.get
  rw [hc]
  unfold ArticleRepository.get_by_id
  rw [hs]
  simp [Value.truthy, CacheRepository.set]

/-- Witness for C1 at the concrete state `st0` and id 5. -/
theorem get_article_miss_populates_cache_witness :
    (ArticleUseCase.get_article st0 5).1 = Value.article a0 ∧
    ((ArticleUseCase.get_article st0 5).2).cache (cacheKey 5)
      = Option.some (Value.article a0) :=
  get_article_miss_populates_cache st0 5 a0 (by decide) (by decide)

/-- C2 counterexample: with the cache holding the (falsy) value `""` under
"article:5" and the store holding `a0` under id 5, `get_article 5` does not
return the cached value — it returns the store's article and performs a
store read. -/
theorem get_article_cached_falsy_not_returned :
    (ArticleUseCase.get_article stF 5).1 = Value.article a0 ∧
    (ArticleUseCase.get_article stF 5).1 ≠ Value.str "" ∧
    ((ArticleUseCase.get_article stF 5).2).storeReads = 1 := by
  refine ⟨by decide, by decide, by decide⟩

/-- C2 amended: for every id whose key "article:"+id maps in the cache to a
TRUTHY value, `get_article` returns that cached value and leaves the whole
state (store, counters and cache) unchanged — in particular it does not
query the store. -/
theorem get_article_truthy_hit_short_circuits (st : SysState) (article_id : Int) (v : Value)
    (hc : st.cache (cacheKey article_id) = Option.some v)
    (hv : v.truthy = true) :
    ArticleUseCase.get_article st article_id = (v, st) := by
  unfold ArticleUseCase.get_article CacheRepository.get
  rw [hc]
  simp [hv]

/-- Witness for the amended C2: in `stW` the key "other" is irrelevant; use
a state whose cache holds the truthy article value under "article:5". -/
theorem get_article_truthy_hit_short_circuits_witness :
    ArticleUseCase.get_article (CacheRepository.set st0 "article:5" (Value.article a0)) 5
      = (Value.article a0, CacheRepository.set st0 "article:5" (Value.article a0)) :=
  get_article_truthy_hit_short_circuits
    (CacheRepository.set st0 "article:5" (Value.article a0)) 5 (Value.article a0)
    (by decide) (by decide)

/-- C3: for an id in neither the cache nor the store, `get_article` returns
absent (Python `None`) and the cache is unchanged — the negative result is
not cached. -/
theorem get_article_absent_not_cached (st : SysState) (article_id : Int)
    (hc : st.cache (cacheKey article_id) = Option.none)
    (hs : st.store article_id = Option.none) :
    (ArticleUseCase.get_article st article_id).1 = Value.none ∧
    ((ArticleUseCase.get_article st article_id).2).cache = st.cache := by
  unfold ArticleUseCase.get_article CacheRepository.get
  rw [hc]
  unfold ArticleRepository.get_by_id
  rw [hs]
  simp [Value.truthy]

/-- Witness for C3 at the empty state `stE` and id 7. -/
theorem get_article_absent_not_cached_witness :
    (ArticleUseCase.get_article stE 7).1 = Value.none ∧
    ((ArticleUseCase.get_article stE 7).2).cache = stE.cache :=
  get_article_absent_not_cached stE 7 (by decide) (by decide)

/-- C4: when the service returns an article the endpoint responds with the
data body wrapping it, and when the service returns absent the endpoint
responds with the body "Article not found" and status 404. -/
theorem controller_get_article_responses (st : SysState) (id : Int) :
    (∀ a, (ArticleUseCase.get_article st id).1 = Value.article a →
      ArticleController.get_article st id
        = (ApiResponse.data (Value.article a), (ArticleUseCase.get_article st id).2)) ∧
    ((ArticleUseCase.get_article st id).1 = Value.none →
      ArticleController.get_article st id
        = (ApiResponse.error "Article not found" 404, (ArticleUseCase.get_article st id).2)) := by
  unfold ArticleController.get_article
  constructor
  · intro a ha
    rw [show ArticleUseCase.get_article st id
          = ((ArticleUseCase.get_article st id).1, (ArticleUseCase.get_article st id).2) from rfl,
        ha]
    simp [Value.truthy]
  · intro ha
    rw [show ArticleUseCase.get_article st id
          = ((ArticleUseCase.get_article st id).1, (ArticleUseCase.get_article st id).2) from rfl,
        ha]
    simp [Value.truthy]

/-- Witness for C4: the hit branch at `st0` id 5, and the miss branch at
`stE` id 7. -/
theorem controller_get_article_responses_witness :
    (ArticleController.get_article st0 5).1 = ApiResponse.data (Value.article a0) ∧
    (ArticleController.get_article stE 7).1 = ApiResponse.error "Article not found" 404 := by
  constructor
  · rw [(controller_get_article_responses st0 5).1 a0 (by decide)]
  · rw [(controller_get_article_responses stE 7).2 (by decide)]

/-- C5: `create_article` builds an Article with id unset, persists it via
the store (which assigns an id), and returns an Article with a non-null id
and the given title and content; the store then holds the returned entity
under that id. -/
theorem create_article_persists_with_id (st : SysState) (title content : String) :
    ∃ i, (ArticleUseCase.create_article st title content).1.id = Option.some i ∧
      (ArticleUseCase.create_article st title content).1.title = title ∧
      (ArticleUseCase.create_article st title content).1.content = content ∧
      ((ArticleUseCase.create_article st title content).2).store i
        = Option.some (ArticleUseCase.create_article st title content).1 := by
  refine ⟨st.nextId, rfl, rfl, rfl, ?_⟩
  unfold ArticleUseCase.create_article ArticleRepository.save
  simp

/-- C6: `create_article` leaves the cache exactly as it was; consequently,
when the new article's key is absent from the cache, an immediately
following `get_article` for its id misses the cache, reads through to the
store (one store read) and returns the created article. -/
theorem create_article_cache_frame (st : SysState) (title content : String) :
    ((ArticleUseCase.create_article st title content).2).cache = st.cache ∧
    (st.cache (cacheKey st.nextId) = Option.none →
      (ArticleUseCase.get_article (ArticleUseCase.create_article st title content).2 st.nextId).1
        = Value.article (ArticleUseCase.create_article st title content).1 ∧
      ((ArticleUseCase.get_article (ArticleUseCase.create_article st title content).2 st.nextId).2).storeReads
        = ((ArticleUseCase.create_article st title content).2).storeReads + 1) := by
  constructor
  · rfl
  · intro hc
    unfold ArticleUseCase.get_article CacheRepository.get
    rw [show ((ArticleUseCase.create_article st title content).2).cache = st.cache from rfl, hc]
    unfold ArticleRepository.get_by_id
    rw [show ((ArticleUseCase.create_article st title content).2).store st.nextId
          = Option.some (ArticleUseCase.create_article st title content).1 from by
        unfold ArticleUseCase.create_article ArticleRepository.save
        simp]
    simp [Value.truthy, CacheRepository.set]

/-- Witness for C6 at `stE`: create an article, then read it back through
the store. -/
theorem create_article_cache_frame_witness :
    ((ArticleUseCase.create_article stE "T" "C").2).cache = stE.cache ∧
    (ArticleUseCase.get_article (ArticleUseCase.create_article stE "T" "C").2 stE.nextId).1
      = Value.article (ArticleUseCase.create_article stE "T" "C").1 ∧
    ((ArticleUseCase.get_article (ArticleUseCase.create_article stE "T" "C").2 stE.nextId).2).storeReads
      = ((ArticleUseCase.create_article stE "T" "C").2).storeReads + 1 :=
  ⟨(create_article_cache_frame stE "T" "C").1,
    (create_article_cache_frame stE "T" "C").2 (by decide)⟩

/-- Path lemma: a truthy cached value short-circuits `get_article`, which
returns it with the state untouched. -/
theorem ArticleUseCase.get_article_hit_eq (st : SysState) (article_id : Int)
    (h : (CacheRepository.get st (cacheKey article_id)).truthy = true) :
    ArticleUseCase.get_article st article_id
      = (CacheRepository.get st (cacheKey article_id), st) := by
  unfold ArticleUseCase.get_article
  simp [h]

/-- Path lemma: on a (truthiness) cache miss with the article in the store,
`get_article` counts one store read, writes the article into the cache and
returns it. -/
theorem ArticleUseCase.get_article_miss_found_eq (st : SysState) (article_id : Int) (a : Article)
    (h : (CacheRepository.get st (cacheKey article_id)).truthy = false)
    (hs : st.store article_id = Option.some a) :
    ArticleUseCase.get_article st article_id
      = (Value.article a,
          CacheRepository.set { st with storeReads := st.storeReads + 1 }
            (cacheKey article_id) (Value.article a)) := by
  unfold ArticleUseCase.get_article ArticleRepository.get_by_id
  rw [hs]
  simp [h]

/-- Path lemma: on a (truthiness) cache miss with no article in the store,
`get_article` counts one store read and returns `None` with the cache
untouched. -/
theorem ArticleUseCase.get_article_miss_absent_eq (st : SysState) (article_id : Int)
    (h : (CacheRepository.get st (cacheKey article_id)).truthy = false)
    (hs : st.store article_id = Option.none) :
    ArticleUseCase.get_article st article_id
      = (Value.none, { st with storeReads := st.storeReads + 1 }) := by
  unfold ArticleUseCase.get_article ArticleRepository.get_by_id
  rw [hs]
  simp [h]

/-- C7 counterexample: in `stF` the cache holds the entry `""` under
"article:5" before the call, and after `get_article 5` that entry has been
overwritten with the store's article — an entry present before is not
present with the same value afterwards. -/
theorem get_article_overwrites_falsy_entry :
    stF.cache "article:5" = Option.some (Value.str "") ∧
    ((ArticleUseCase.get_article stF 5).2).cache "article:5"
      = Option.some (Value.article a0) ∧
    Option.some (Value.article a0) ≠ Option.some (Value.str "") := by
  refine ⟨by decide, by decide, by decide⟩

/-- C7 amended: `get_article` never evicts a cache key, and every entry
that is truthy, or that sits under a key other than the queried one, keeps
its value; the only possible overwrite is of a falsy entry at the queried
key "article:"+id. Every key other than the queried one is left exactly as
it was — absent keys stay absent — so at most one new entry is added, at
the queried key. -/
theorem get_article_cache_insertion_only (st : SysState) (article_id : Int) :
    (∀ k v, st.cache k = Option.some v →
      (v.truthy = true ∨ k ≠ cacheKey article_id) →
      ((ArticleUseCase.get_article st article_id).2).cache k = Option.some v) ∧
    (∀ k, (st.cache k).isSome = true →
      (((ArticleUseCase.get_article st article_id).2).cache k).isSome = true) ∧
    (∀ k, k ≠ cacheKey article_id →
      ((ArticleUseCase.get_article st article_id).2).cache k = st.cache k) := by
  rcases ht : (CacheRepository.get st (cacheKey article_id)).truthy with _ | _
  · rcases hs : st.store article_id with _ | a
    · rw [ArticleUseCase.get_article_miss_absent_eq st article_id ht hs]
      exact ⟨fun k v hk _ => hk, fun k hk => hk, fun k _ => rfl⟩
    · rw [ArticleUseCase.get_article_miss_found_eq st article_id a ht hs]
      refine ⟨?_, ?_, ?_⟩
      · intro k v hk hor
        rcases eq_or_ne k (cacheKey article_id) with h | h
        · rcases hor with htr | hne
          · exfalso
            have hv : CacheRepository.get st (cacheKey article_id) = v := by
              unfold CacheRepository.get
              rw [h] at hk
              rw [hk]
              rfl
            rw [hv, htr] at ht
            exact Bool.noConfusion ht
          · exact absurd h hne
        · simp [CacheRepository.set, h, hk]
      · intro k hk
        rcases eq_or_ne k (cacheKey article_id) with h | h
        · simp [CacheRepository.set, h]
        · simpa [CacheRepository.set, h] using hk
      · intro k h
        simp [CacheRepository.set, h]
  · rw [ArticleUseCase.get_article_hit_eq st article_id ht]
    exact ⟨fun k v hk _ => hk, fun k hk => hk, fun k _ => rfl⟩

/-- Witness for the amended C7 at `stW` id 5: the truthy entry under the
unrelated key "other" survives the call, its key is not evicted, and the
unrelated absent key "zzz" stays absent. -/
theorem get_article_cache_insertion_only_witness :
    ((ArticleUseCase.get_article stW 5).2).cache "other" = Option.some (Value.int 3) ∧
    (((ArticleUseCase.get_article stW 5).2).cache "other").isSome = true ∧
    ((ArticleUseCase.get_article stW 5).2).cache "zzz" = stW.cache "zzz" :=
  ⟨(get_article_cache_insertion_only stW 5).1 "other" (Value.int 3) (by decide)
      (Or.inl (by decide)),
    (get_article_cache_insertion_only stW 5).2.1 "other" (by decide),
    (get_article_cache_insertion_only stW 5).2.2 "zzz" (by decide)⟩

/-- C8: `get_db` acquires a connection and, whatever the request body does
with it — return normally or raise — the connection is closed on exit and
the body's outcome is propagated unchanged. -/
theorem get_db_closes_connection {α : Type}
    (body : Nat → DbState → PyOutcome α × DbState) (s : DbState) :
    s.nextConn ∈ ((get_db body s).2).closed ∧
    (get_db body s).1 = (body s.nextConn ((sessionLocal s).2)).1 := by
  unfold get_db sessionLocal
  dsimp only
  rcases body s.nextConn { s with nextConn := s.nextConn + 1 } with ⟨r, s2⟩
  rcases r with a | e <;>
    exact ⟨List.mem_cons_self _ _, rfl⟩

/-- C9: the cache-hit test is truthiness, not presence: a falsy value under
"article:"+id is treated as a miss — the store is read (the read counter
advances) and, when the store holds an article, that falsy entry is
overwritten with the article, which is returned. -/
theorem get_article_falsy_cache_treated_as_miss (st : SysState) (article_id : Int) (v : Value)
    (hc : st.cache (cacheKey article_id) = Option.some v)
    (hv : v.truthy = false) :
    ((ArticleUseCase.get_article st article_id).2).storeReads = st.storeReads + 1 ∧
    (∀ a, st.store article_id = Option.some a →
      (ArticleUseCase.get_article st article_id).1 = Value.article a ∧
      ((ArticleUseCase.get_article st article_id).2).cache (cacheKey article_id)
        = Option.some (Value.article a)) := by
  have hm : (CacheRepository.get st (cacheKey article_id)).truthy = false := by
    unfold CacheRepository.get
    rw [hc]
    exact hv
  rcases hs : st.store article_id with _ | a
  · rw [ArticleUseCase.get_article_miss_absent_eq st article_id hm hs]
    exact ⟨rfl, fun a ha => Option.noConfusion ha⟩
  · rw [ArticleUseCase.get_article_miss_found_eq st article_id a hm hs]
    refine ⟨rfl, fun b hb => ?_⟩
    rw [Option.some_inj] at hb
    subst hb
    exact ⟨rfl, by simp [CacheRepository.set]⟩

/-- Witness for C9 at `stF` id 5: the falsy cached `""` is ignored, the
store is read and the entry overwritten with `a0`. -/
theorem get_article_falsy_cache_treated_as_miss_witness :
    ((ArticleUseCase.get_article stF 5).2).storeReads = stF.storeReads + 1 ∧
    (ArticleUseCase.get_article stF 5).1 = Value.article a0 ∧
    ((ArticleUseCase.get_article stF 5).2).cache (cacheKey 5)
      = Option.some (Value.article a0) :=
  ⟨(get_article_falsy_cache_treated_as_miss stF 5 (Value.str "") (by decide) (by decide)).1,
    (get_article_falsy_cache_treated_as_miss stF 5 (Value.str "") (by decide) (by decide)).2
      a0 (by decide)⟩

/-- C10: `get_article` never modifies the store: the store map and the next
id to assign are unchanged on every path (the read path performs no save). -/
theorem get_article_store_frame (st : SysState) (article_id : Int) :
    ((ArticleUseCase.get_article st article_id).2).store = st.store ∧
    ((ArticleUseCase.get_article st article_id).2).nextId = st.nextId := by
  unfold ArticleUseCase.get_article CacheRepository.get ArticleRepository.get_by_id
  rcases hc : (st.cache (cacheKey article_id)).getD Value.none with _ | _ | _ | _ <;>
    simp only [Value.truthy] <;>
    first
      | exact ⟨rfl, rfl⟩
      | (rcases hs : st.store article_id with _ | a <;>
          split <;> simp [CacheRepository.set])
